import Mathlib

/-!
Shallow embedding of the `playwright-enhanced-reporter` aggregation pipeline:
the metric accumulator (`EnhancedReporter.onTestEnd`), the annotation
extractor (`extractAllureProperties`), the error classifier
(`categorizeError`), the report assembler (`onEnd`), the trend store
(`generateTrendsReport` / `loadExistingTrends`) and the HTML details
renderer (`EnhancedHTMLGenerator.generateDetailsSection`, `escapeHtml`,
`sanitizeErrorMessage`).

Conventions of the embedding:
- JavaScript string maps (`Record<string, T>`) become association lists
  `List (String × T)` preserving insertion order (JS object key order).
- JS `string.includes` becomes `jsIncludes` (exact substring search).
- The JS falsy-default idiom `x || d` on possibly-absent / possibly-empty
  strings becomes `jsOrD`.
- Durations are milliseconds as `Nat`; derived rates (which the source
  computes with JS number division) are modelled as exact rationals `ℚ`.
- Wall-clock reads (`new Date()`) become explicit `Nat` timestamp
  parameters; file reads become an explicit `TrendReadOutcome` argument.
-/

namespace PlaywrightEnhancedReporter

/-! ### JS string primitives -/

/-- `listStartsWith s pat` : does `s` start with `pat`? -/
def listStartsWith : List Char → List Char → Bool
  | _, [] => true
  | [], _ :: _ => false
  | a :: as, b :: bs => a = b && listStartsWith as bs

/-- `hasSub s pat` : does `pat` occur as a contiguous substring of `s`?
Mirrors JS `String.prototype.includes`. -/
def hasSub : List Char → List Char → Bool
  | [], pat => pat.isEmpty
  | c :: rest, pat => listStartsWith (c :: rest) pat || hasSub rest pat

/-- JS `s.includes(sub)`. -/
def jsIncludes (s sub : String) : Bool := hasSub s.toList sub.toList

/-- JS `x || d` for an optional string `x`: the default is used when `x`
is absent or the empty string (both are falsy in JS). -/
def jsOrD : Option String → String → String
  | none, d => d
  | some s, d => if s = "" then d else s

/-- ASCII lowercasing, used only by the spec-side case-insensitive
classifier that claim C3 describes. -/
def toLowerStr (s : String) : String := String.mk (s.toList.map Char.toLower)

/-- JS `s.replace(pat, rep)` with string pattern: replace the first
occurrence only (identity when `pat` does not occur). -/
def replaceFirst : List Char → List Char → List Char → List Char
  | [], pat, rep => if pat.isEmpty then rep else []
  | c :: rest, pat, rep =>
    if listStartsWith (c :: rest) pat then rep ++ (c :: rest).drop pat.length
    else c :: replaceFirst rest pat rep

/-- Global single-character replacement (JS `s.replace(/x/g, "y")` with
one-character pattern and replacement). -/
def replaceChar (a b : Char) (s : List Char) : List Char :=
  s.map fun c => if c = a then b else c

/-- Global replacement of one character by a string; used by `escapeHtml`
where each pattern is a single character. -/
def replaceCharStr (a : Char) (rep : String) (s : String) : String :=
  String.join (s.toList.map fun c => if c = a then rep else String.singleton c)

/-! ### Association-list operations standing for JS `Record<string, T>` -/

/-- Lookup in an insertion-ordered string map. -/
def getKey {α : Type} : List (String × α) → String → Option α
  | [], _ => none
  | (k, v) :: rest, key => if k = key then some v else getKey rest key

/-- Assignment `m[key] = v`: overwrite in place if present, else append
(JS objects keep insertion order). -/
def setKey {α : Type} : List (String × α) → String → α → List (String × α)
  | [], key, v => [(key, v)]
  | (k, w) :: rest, key, v =>
    if k = key then (k, v) :: rest else (k, w) :: setKey rest key v

/-- Apply `f` to the value stored at `key` (no-op when absent). -/
def updKey {α : Type} (m : List (String × α)) (key : String) (f : α → α) :
    List (String × α) :=
  m.map fun p => if p.1 = key then (p.1, f p.2) else p

/-- `if (!m[key]) m[key] = v0` — initialize a bucket when missing. -/
def ensureKey {α : Type} (m : List (String × α)) (key : String) (v0 : α) :
    List (String × α) :=
  if (getKey m key).isSome then m else setKey m key v0

/-! ### Data model (`src/types.ts`) -/

/-- Playwright completion statuses consumed by the reporter. -/
inductive Status
  | passed
  | failed
  | skipped
  | timedOut
  | interrupted
deriving DecidableEq, Repr

/-- The status string stored on a `TestResultDetail` (`result.status`). -/
def Status.toStr : Status → String
  | .passed => "passed"
  | .failed => "failed"
  | .skipped => "skipped"
  | .timedOut => "timedOut"
  | .interrupted => "interrupted"

structure BrowserStat where
  passed : Nat
  failed : Nat
  duration : Nat
deriving DecidableEq, Repr

structure GroupStat where
  total : Nat
  passed : Nat
  failed : Nat
deriving DecidableEq, Repr

/-- One free-form `{type, description}` tag attached to a test
(the source calls these annotations; `description` may be absent). -/
structure TestAnno where
  type : String
  description : Option String
deriving DecidableEq, Repr

/-- Normalized severity/feature/epic triple returned by
`extractAllureProperties` (all fields present after defaulting). -/
structure AllureProps where
  severity : String
  feature : String
  epic : String
deriving DecidableEq, Repr

/-- The slice of Playwright's `TestCase` the reporter reads:
`test.title`, `test.parent?.project()?.name`, `test.location?.file`
and `test.annotations` (here the field `annos`). -/
structure TestCase where
  title : String
  projectName : Option String
  file : Option String
  annos : List TestAnno
deriving DecidableEq, Repr

/-- The slice of Playwright's `TestResult` the reporter reads; `error`
models `result.error?.message` (present iff `result.error` is present). -/
structure TestResult where
  status : Status
  duration : Nat
  error : Option String
  retry : Nat
deriving DecidableEq, Repr

/-- `TestMetrics` from `src/types.ts`. -/
structure TestMetrics where
  totalTests : Nat
  passed : Nat
  failed : Nat
  skipped : Nat
  flaky : Nat
  duration : Nat
  passRate : ℚ
  failRate : ℚ
  avgDuration : ℚ
  startTime : Nat
  endTime : Nat
  slowestTest : Option (String × Nat)
  fastestTest : Option (String × Nat)
  browserMetrics : List (String × BrowserStat)
  errorCategories : List (String × Nat)
  severityMetrics : List (String × GroupStat)
  featureMetrics : List (String × GroupStat)
  epicMetrics : List (String × GroupStat)
deriving DecidableEq, Repr

/-- `TestResultDetail` from `src/types.ts` (status kept as its string). -/
structure TestResultDetail where
  test : String
  status : String
  duration : Nat
  browser : String
  specFile : String
  retry : Nat
  error : Option String
  allureProperties : Option AllureProps
deriving DecidableEq, Repr

/-- `TrendEntry` written by `generateTrendsReport` (timestamp is the
run's `endTime`). -/
structure TrendEntry where
  timestamp : Nat
  totalTests : Nat
  passed : Nat
  failed : Nat
  passRate : ℚ
  duration : Nat
  avgDuration : ℚ
deriving DecidableEq, Repr

/-- The mutable state of one `EnhancedReporter` instance. -/
structure ReporterState where
  metrics : TestMetrics
  testResults : List TestResultDetail
deriving DecidableEq, Repr

/-- The metrics object built in the constructor (both timestamps are
`new Date()` at construction, here the parameter `t0`). -/
def initialMetrics (t0 : Nat) : TestMetrics where
  totalTests := 0
  passed := 0
  failed := 0
  skipped := 0
  flaky := 0
  duration := 0
  passRate := 0
  failRate := 0
  avgDuration := 0
  startTime := t0
  endTime := t0
  slowestTest := none
  fastestTest := none
  browserMetrics := []
  errorCategories := []
  severityMetrics := []
  featureMetrics := []
  epicMetrics := []

/-- Reporter state right after the constructor ran. -/
def initialState (t0 : Nat) : ReporterState where
  metrics := initialMetrics t0
  testResults := []

/-! ### `EnhancedReporter.categorizeError` -/

/-- `categorizeError` from `src/index.ts` (lines 312-326): an if/else-if
chain of case-sensitive JS `includes` tests. -/
def categorizeError (errorMessage : String) : String :=
  if jsIncludes errorMessage "timeout" || jsIncludes errorMessage "Timeout" then
    "Timeout"
  else if jsIncludes errorMessage "selector" || jsIncludes errorMessage "locator" then
    "Selector/Locator"
  else if jsIncludes errorMessage "network" || jsIncludes errorMessage "fetch" then
    "Network"
  else if jsIncludes errorMessage "assertion" || jsIncludes errorMessage "expected" then
    "Assertion"
  else if jsIncludes errorMessage "navigation" || jsIncludes errorMessage "page" then
    "Navigation"
  else
    "Other"

/-- First-match evaluation of an ordered keyword rule table. -/
def firstMatch (msg : String) : List (List String × String) → String
  | [] => "Other"
  | (kws, cat) :: rest =>
    if kws.any (fun k => jsIncludes msg k) then cat else firstMatch msg rest

/-- The classifier's keyword table in its priority order, read off the
source's if/else-if chain. -/
def keywordRules : List (List String × String) :=
  [ (["timeout", "Timeout"], "Timeout"),
    (["selector", "locator"], "Selector/Locator"),
    (["network", "fetch"], "Network"),
    (["assertion", "expected"], "Assertion"),
    (["navigation", "page"], "Navigation") ]

/-- The classifier claim C3 describes, following the claim's words:
the same priority order but with CASE-INSENSITIVE substring matching.
Stated only to compare against the implemented `categorizeError`. -/
def categorizeErrorCI (errorMessage : String) : String :=
  let msg := toLowerStr errorMessage
  if jsIncludes msg "timeout" then "Timeout"
  else if jsIncludes msg "selector" || jsIncludes msg "locator" then "Selector/Locator"
  else if jsIncludes msg "network" || jsIncludes msg "fetch" then "Network"
  else if jsIncludes msg "assertion" || jsIncludes msg "expected" then "Assertion"
  else if jsIncludes msg "navigation" || jsIncludes msg "page" then "Navigation"
  else "Other"

example : categorizeError "Timeout 30000ms exceeded" = "Timeout" := by decide
example : categorizeError "locator.click: element not found" = "Selector/Locator" := by decide
example : categorizeError "TIMEOUT exceeded" = "Other" := by decide
example : categorizeErrorCI "TIMEOUT exceeded" = "Timeout" := by decide

/-! ### `EnhancedReporter.extractAllureProperties` -/

/-- Intermediate properties object before defaulting (each field still
possibly unset, as in the source's local `properties`). -/
structure AllurePropsOpt where
  severity : Option String := none
  feature : Option String := none
  epic : Option String := none
deriving DecidableEq, Repr

/-- Body of the `forEach` over `test.annotations`: the `switch` on
`annotation.type` with its three cases (anything else is ignored). -/
def applyAnno (p : AllurePropsOpt) (a : TestAnno) : AllurePropsOpt :=
  if a.type = "severity" then { p with severity := some (jsOrD a.description "normal") }
  else if a.type = "feature" then { p with feature := some (jsOrD a.description "Unknown") }
  else if a.type = "epic" then { p with epic := some (jsOrD a.description "General") }
  else p

/-- `extractAllureProperties` (`src/index.ts` lines 104-126): forEach over
the tags, then `x = x || default` for each of the three fields. -/
def extractAllureProperties (t : TestCase) : AllureProps :=
  let p := t.annos.foldl applyAnno {}
  { severity := jsOrD p.severity "normal"
    feature := jsOrD p.feature "Unknown"
    epic := jsOrD p.epic "General" }

/-! ### `EnhancedReporter.extractBrowserName` / `extractSpecFilePath` -/

/-- JS `p.charAt(0).toUpperCase() + p.slice(1)`. -/
def capitalizeJs (s : String) : String :=
  match s.toList with
  | [] => ""
  | c :: rest => String.mk (c.toUpper :: rest)

/-- `extractBrowserName` (`src/index.ts` lines 166-186). -/
def extractBrowserName (t : TestCase) : String :=
  let projectName := t.projectName.getD ""
  if projectName ≠ "" then
    if projectName = "chromium" || jsIncludes projectName "chrome" then "Chromium"
    else if projectName = "firefox" then "Firefox"
    else if projectName = "webkit" || jsIncludes projectName "safari" then "WebKit"
    else if projectName = "mobile-chrome" then "Mobile Chrome"
    else if projectName = "mobile-safari" then "Mobile Safari"
    else capitalizeJs projectName
  else
    let testFile := t.file.getD ""
    let testTitle := t.title
    if jsIncludes testFile "chromium" || jsIncludes testTitle "chromium" then "Chromium"
    else if jsIncludes testFile "firefox" || jsIncludes testTitle "firefox" then "Firefox"
    else if jsIncludes testFile "webkit" || jsIncludes testTitle "webkit" then "WebKit"
    else "Chromium"

/-- `extractSpecFilePath` (`src/index.ts` lines 188-198); `process.cwd()`
is the explicit `cwd` parameter. -/
def extractSpecFilePath (cwd : String) (t : TestCase) : String :=
  let filePath := t.file.getD ""
  if filePath ≠ "" then
    let relativePath :=
      String.mk (replaceChar '\\' '/' (replaceFirst filePath.toList cwd.toList []))
    if listStartsWith relativePath.toList ['/'] then
      String.mk (relativePath.toList.drop 1)
    else relativePath
  else "Unknown"

/-! ### `EnhancedReporter.updateAllureMetrics` and `onTestEnd` -/

/-- One block of `updateAllureMetrics`: initialize the bucket when
missing, then `total++` and `passed++`/`failed++`. -/
def bumpGroupMap (mp : List (String × GroupStat)) (key : String)
    (isPassed : Bool) : List (String × GroupStat) :=
  updKey (ensureKey mp key ⟨0, 0, 0⟩) key fun g =>
    { g with
      total := g.total + 1
      passed := if isPassed then g.passed + 1 else g.passed
      failed := if isPassed then g.failed else g.failed + 1 }

/-- `updateAllureMetrics` (`src/index.ts` lines 128-164); `isPassed`
stands for the source's `status === 'passed'`, and each map is guarded
by the truthiness of the corresponding property. -/
def updateAllureMetrics (props : AllureProps) (isPassed : Bool)
    (m : TestMetrics) : TestMetrics :=
  { m with
    severityMetrics :=
      if props.severity ≠ "" then bumpGroupMap m.severityMetrics props.severity isPassed
      else m.severityMetrics
    featureMetrics :=
      if props.feature ≠ "" then bumpGroupMap m.featureMetrics props.feature isPassed
      else m.featureMetrics
    epicMetrics :=
      if props.epic ≠ "" then bumpGroupMap m.epicMetrics props.epic isPassed
      else m.epicMetrics }

/-- `if (!slowest || duration > slowest.duration) slowest = {name, duration}`. -/
def updSlowest (m : TestMetrics) (ti : String) (d : Nat) : TestMetrics :=
  { m with
    slowestTest :=
      match m.slowestTest with
      | none => some (ti, d)
      | some st => if st.2 < d then some (ti, d) else some st }

/-- `if (!fastest || duration < fastest.duration) fastest = {name, duration}`. -/
def updFastest (m : TestMetrics) (ti : String) (d : Nat) : TestMetrics :=
  { m with
    fastestTest :=
      match m.fastestTest with
      | none => some (ti, d)
      | some ft => if d < ft.2 then some (ti, d) else some ft }

/-- `onTestEnd` (`src/index.ts` lines 51-102), as a pure state
transformer; `cwd` is the ambient `process.cwd()`. -/
def onTestEnd (cwd : String) (s : ReporterState) (t : TestCase)
    (r : TestResult) : ReporterState :=
  let m := { s.metrics with totalTests := s.metrics.totalTests + 1 }
  let browserName := extractBrowserName t
  let m := { m with browserMetrics := ensureKey m.browserMetrics browserName ⟨0, 0, 0⟩ }
  let props := extractAllureProperties t
  let m :=
    if r.status = .passed then
      let m :=
        { m with
          passed := m.passed + 1
          browserMetrics := updKey m.browserMetrics browserName
            fun b => { b with passed := b.passed + 1 } }
      updateAllureMetrics props true m
    else if r.status = .failed then
      let m :=
        { m with
          failed := m.failed + 1
          browserMetrics := updKey m.browserMetrics browserName
            fun b => { b with failed := b.failed + 1 } }
      let m := updateAllureMetrics props false m
      match r.error with
      | some err =>
        let errorCategory := categorizeError err
        { m with
          errorCategories :=
            setKey m.errorCategories errorCategory
              (((getKey m.errorCategories errorCategory).getD 0) + 1) }
      | none => m
    else if r.status = .skipped then
      { m with skipped := m.skipped + 1 }
    else if r.status = .timedOut ∨ r.status = .interrupted then
      { m with
        failed := m.failed + 1
        browserMetrics := updKey m.browserMetrics browserName
          fun b => { b with failed := b.failed + 1 } }
    else m
  let m :=
    { m with
      duration := m.duration + r.duration
      browserMetrics := updKey m.browserMetrics browserName
        fun b => { b with duration := b.duration + r.duration } }
  let m := updSlowest m t.title r.duration
  let m := updFastest m t.title r.duration
  { metrics := m
    testResults := s.testResults ++
      [{ test := t.title
         status := r.status.toStr
         duration := r.duration
         browser := browserName
         specFile := extractSpecFilePath cwd t
         retry := r.retry
         error := r.error
         allureProperties := some props }] }

/-- Sequentially feed a list of completion events to a fresh reporter. -/
def runEvents (cwd : String) (t0 : Nat) (events : List (TestCase × TestResult)) :
    ReporterState :=
  events.foldl (fun s ev => onTestEnd cwd s ev.1 ev.2) (initialState t0)

/-! ### `EnhancedReporter.onEnd` (report assembler) -/

/-- `onEnd` (`src/index.ts` lines 200-209): set `endTime` to the current
time (`now`) and compute the derived rates, guarding `totalTests > 0`. -/
def onEnd (now : Nat) (s : ReporterState) : ReporterState :=
  { s with
    metrics :=
      { s.metrics with
        endTime := now
        passRate :=
          if 0 < s.metrics.totalTests then
            ((s.metrics.passed : ℚ) / (s.metrics.totalTests : ℚ)) * 100
          else 0
        failRate :=
          if 0 < s.metrics.totalTests then
            ((s.metrics.failed : ℚ) / (s.metrics.totalTests : ℚ)) * 100
          else 0
        avgDuration :=
          if 0 < s.metrics.totalTests then
            (s.metrics.duration : ℚ) / (s.metrics.totalTests : ℚ)
          else 0 } }

/-! ### Trend store (`generateTrendsReport` / `loadExistingTrends`) -/

/-- The `currentTrend` object built in `generateTrendsReport`. -/
def mkTrendEntry (m : TestMetrics) : TrendEntry where
  timestamp := m.endTime
  totalTests := m.totalTests
  passed := m.passed
  failed := m.failed
  passRate := m.passRate
  duration := m.duration
  avgDuration := m.avgDuration

/-- `trends.push(currentTrend); if (trends.length > 30)
trends.splice(0, trends.length - 30)` (`src/index.ts` lines 291-295):
push at the back, then cut from the front down to 30 entries. -/
def appendTrend (trends : List TrendEntry) (e : TrendEntry) : List TrendEntry :=
  if 30 < (trends ++ [e]).length then
    (trends ++ [e]).drop ((trends ++ [e]).length - 30)
  else trends ++ [e]

/-- Outcome of reading the trends file, making `loadExistingTrends`'s
I/O explicit: the file may be absent, unreadable/unparsable, or hold a
parsed array. -/
inductive TrendReadOutcome
  | absent
  | unreadable
  | ok (entries : List TrendEntry)

/-- `loadExistingTrends` (`src/index.ts` lines 301-310): missing file →
skip; any read/parse error → caught and logged; both return `[]`. -/
def loadExistingTrends : TrendReadOutcome → List TrendEntry
  | .absent => []
  | .unreadable => []
  | .ok entries => entries

/-- The list written back by `generateTrendsReport` (`src/index.ts`
lines 278-299). -/
def generateTrendsReport (m : TestMetrics) (file : TrendReadOutcome) :
    List TrendEntry :=
  appendTrend (loadExistingTrends file) (mkTrendEntry m)

/-! ### `EnhancedHTMLGenerator.escapeHtml` / `sanitizeErrorMessage` -/

/-- `escapeHtml` (`src/html-generator.ts` lines 27-34): five sequential
global replaces, in the source's order. -/
def escapeHtml (text : String) : String :=
  replaceCharStr (Char.ofNat 39) "&#039;"
    (replaceCharStr '"' "&quot;"
      (replaceCharStr '>' "&gt;"
        (replaceCharStr '<' "&lt;"
          (replaceCharStr '&' "&amp;" text))))

/-- Characters allowed in the body of an ANSI color sequence (`[0-9;]`). -/
def isAnsiBody (c : Char) : Bool := c.isDigit || c = ';'

theorem length_dropWhile_le (p : Char → Bool) (l : List Char) :
    (l.dropWhile p).length ≤ l.length := by
  induction l with
  | nil => simp
  | cons a l ih =>
    rw [List.dropWhile_cons]
    split
    · exact Nat.le_succ_of_le ih
    · simp

/-- After an ESC character, try to match `\x5b[0-9;]*m`; on success
return the remainder after the closing `m`. -/
def ansiSuffix : List Char → Option (List Char)
  | [] => none
  | c :: rest2 =>
    if c = '[' then
      match rest2.dropWhile isAnsiBody with
      | 'm' :: tail => some tail
      | _ => none
    else none

theorem ansiSuffix_length {rest tail : List Char}
    (h : ansiSuffix rest = some tail) : tail.length < rest.length := by
  cases rest with
  | nil => simp [ansiSuffix] at h
  | cons c rest2 =>
    simp only [ansiSuffix] at h
    split at h
    · split at h
      · next tl heq =>
          have hle := length_dropWhile_le isAnsiBody rest2
          rw [heq] at hle
          cases h
          simp only [List.length_cons] at hle ⊢
          omega
      · exact absurd h (by simp)
    · exact absurd h (by simp)

/-- Remove every occurrence of the regex `\x1b\x5b[0-9;]*m`
(the first and third replaces of `sanitizeErrorMessage`). -/
def stripAnsiCodes : List Char → List Char
  | [] => []
  | c :: rest =>
    if c = Char.ofNat 27 then
      match h2 : ansiSuffix rest with
      | some tail => stripAnsiCodes tail
      | none => c :: stripAnsiCodes rest
    else c :: stripAnsiCodes rest
termination_by cs => cs.length
decreasing_by
  · simpa using Nat.lt_succ_of_lt (ansiSuffix_length h2)
  · simp
  · simp

/-- After a `[` character, try to match `\d+m`; on success return the
remainder after the closing `m`. -/
def bracketSuffix (rest : List Char) : Option (List Char) :=
  if (rest.takeWhile Char.isDigit).isEmpty then none
  else
    match rest.dropWhile Char.isDigit with
    | 'm' :: tail => some tail
    | _ => none

theorem bracketSuffix_length {rest tail : List Char}
    (h : bracketSuffix rest = some tail) : tail.length < rest.length := by
  simp only [bracketSuffix] at h
  split at h
  · exact absurd h (by simp)
  · split at h
    · next tl heq =>
        have hle := length_dropWhile_le Char.isDigit rest
        rw [heq] at hle
        cases h
        simp only [List.length_cons] at hle
        omega
    · exact absurd h (by simp)

/-- Remove every occurrence of the regex `\x5b\d+m`
(the second replace of `sanitizeErrorMessage`). -/
def stripBracketCodes : List Char → List Char
  | [] => []
  | c :: rest =>
    if c = '[' then
      match h2 : bracketSuffix rest with
      | some tail => stripBracketCodes tail
      | none => c :: stripBracketCodes rest
    else c :: stripBracketCodes rest
termination_by cs => cs.length
decreasing_by
  · simpa using Nat.lt_succ_of_lt (bracketSuffix_length h2)
  · simp
  · simp

/-- JS `s.trim()`: strip whitespace from both ends. -/
def trimChars (cs : List Char) : List Char :=
  ((cs.dropWhile Char.isWhitespace).reverse.dropWhile Char.isWhitespace).reverse

/-- `sanitizeErrorMessage` (`src/html-generator.ts` lines 13-22):
falsy message → `"-"`; otherwise strip ANSI color sequences, bracket
color codes, unicode escape sequences (same pattern as the first
replace), then trim. -/
def sanitizeErrorMessage : Option String → String
  | none => "-"
  | some msg =>
    if msg = "" then "-"
    else
      String.mk
        (trimChars (stripAnsiCodes (stripBracketCodes (stripAnsiCodes msg.toList))))

/-! ### `EnhancedHTMLGenerator.generateDetailsSection` -/

/-- `n` spaces, to transcribe the template's indentation. -/
def sp (n : Nat) : String := String.mk (List.replicate n ' ')

/-- The template text of `generateDetailsSection` before the
`testResults.map(...)` interpolation (`src/html-generator.ts` lines
292-318). -/
def dsHeader : String :=
  "\n" ++ sp 8 ++ "<!-- Test Details Row -->\n"
  ++ sp 8 ++ "<div class=\"row\" id=\"details\">\n"
  ++ sp 12 ++ "<div class=\"col-md-12\">\n"
  ++ sp 16 ++ "<div class=\"x_panel\">\n"
  ++ sp 20 ++ "<div class=\"x_title\" onclick=\"togglePanel(this)\">\n"
  ++ sp 24 ++ "<h2><i class=\"fas fa-list\"></i> Test Details</h2>\n"
  ++ sp 24 ++ "<ul class=\"panel_toolbox\">\n"
  ++ sp 28
  ++ "<li><a class=\"collapse-link\"><i class=\"fas fa-chevron-up\"></i></a></li>\n"
  ++ sp 24 ++ "</ul>\n"
  ++ sp 20 ++ "</div>\n"
  ++ sp 20 ++ "<div class=\"x_content\">\n"
  ++ sp 24 ++ "<div class=\"table-responsive\">\n"
  ++ sp 28 ++ "<table class=\"data-table\">\n"
  ++ sp 32 ++ "<thead>\n"
  ++ sp 36 ++ "<tr>\n"
  ++ sp 40 ++ "<th>Test Name</th>\n"
  ++ sp 40 ++ "<th>Status</th>\n"
  ++ sp 40 ++ "<th>Browser</th>\n"
  ++ sp 40 ++ "<th>Spec File</th>\n"
  ++ sp 40 ++ "<th>Duration</th>\n"
  ++ sp 40 ++ "<th>Severity</th>\n"
  ++ sp 40 ++ "<th>Feature</th>\n"
  ++ sp 40 ++ "<th>Error</th>\n"
  ++ sp 36 ++ "</tr>\n"
  ++ sp 32 ++ "</thead>\n"
  ++ sp 32 ++ "<tbody>\n"
  ++ sp 36

/-- The template text after the `.join('')` interpolation
(`src/html-generator.ts` lines 335-342). -/
def dsFooter : String :=
  "\n" ++ sp 32 ++ "</tbody>\n"
  ++ sp 28 ++ "</table>\n"
  ++ sp 24 ++ "</div>\n"
  ++ sp 20 ++ "</div>\n"
  ++ sp 16 ++ "</div>\n"
  ++ sp 12 ++ "</div>\n"
  ++ sp 8 ++ "</div>"

/-- The opening of one table row up to the interpolated test name
(`<tr>` line plus `<td><strong>`). -/
def rowPre : String := "\n" ++ sp 40 ++ "<tr>\n" ++ sp 44 ++ "<td><strong>"

/-- The rest of one table row after the interpolated test name
(`src/html-generator.ts` lines 321-335). -/
def rowAfterTest (r : TestResultDetail) : String :=
  "</strong></td>\n"
  ++ sp 44 ++ "<td>\n"
  ++ sp 48 ++ "<span class=\"status-badge status-" ++ r.status ++ "\">\n"
  ++ sp 52 ++ "<i class=\"fas fa-"
  ++ (if r.status = "passed" then "check"
      else if r.status = "failed" then "times" else "minus")
  ++ "\"></i>\n"
  ++ sp 52 ++ r.status ++ "\n"
  ++ sp 48 ++ "</span>\n"
  ++ sp 44 ++ "</td>\n"
  ++ sp 44 ++ "<td><i class=\"fas fa-globe\"></i> " ++ r.browser ++ "</td>\n"
  ++ sp 44 ++ "<td><i class=\"fas fa-file-code\"></i> " ++ r.specFile ++ "</td>\n"
  ++ sp 44 ++ "<td><i class=\"fas fa-clock\"></i> " ++ toString r.duration ++ "ms</td>\n"
  ++ sp 44 ++ "<td><i class=\"fas fa-exclamation-triangle\"></i> "
  ++ jsOrD (r.allureProperties.map AllureProps.severity) "normal" ++ "</td>\n"
  ++ sp 44 ++ "<td><i class=\"fas fa-tag\"></i> "
  ++ jsOrD (r.allureProperties.map AllureProps.feature) "Unknown" ++ "</td>\n"
  ++ sp 44 ++ "<td style=\"max-width: 300px; word-wrap: break-word;\">"
  ++ escapeHtml (sanitizeErrorMessage r.error) ++ "</td>\n"
  ++ sp 40 ++ "</tr>\n"
  ++ sp 36

/-- One table row of the details section: the inner template literal of
`testResults.map(result => ...)` (`src/html-generator.ts` lines
319-335). Free-form fields other than the error message are
interpolated verbatim, exactly as in the source. -/
def detailRow (r : TestResultDetail) : String :=
  rowPre ++ r.test ++ rowAfterTest r

/-- `generateDetailsSection` (`src/html-generator.ts` lines 291-343):
header, the rows joined with the empty string, footer. -/
def generateDetailsSection (testResults : List TestResultDetail) : String :=
  dsHeader ++ String.join (testResults.map detailRow) ++ dsFooter

/-! ## Theorems -/

/-! ### Trend store (claims C6, C9) -/

theorem appendTrend_eq_drop (trends : List TrendEntry) (e : TrendEntry) :
    appendTrend trends e =
      (trends ++ [e]).drop ((trends ++ [e]).length - 30) := by
  unfold appendTrend
  split
  · rfl
  · next h30 =>
      have h0 : (trends ++ [e]).length - 30 = 0 := by omega
      rw [h0, List.drop_zero]

theorem appendTrend_length_le (trends : List TrendEntry) (e : TrendEntry) :
    (appendTrend trends e).length ≤ 30 := by
  unfold appendTrend
  split
  · next h30 => simp only [List.length_drop]; omega
  · next h30 => omega

theorem foldl_appendTrend_eq (es : List TrendEntry) :
    ∀ acc : List TrendEntry, acc.length ≤ 30 →
      es.foldl appendTrend acc = (acc ++ es).drop ((acc ++ es).length - 30) := by
  induction es with
  | nil =>
    intro acc hacc
    have h0 : acc.length - 30 = 0 := by omega
    simp [h0]
  | cons e rest ih =>
    intro acc hacc
    rw [List.foldl_cons, ih _ (appendTrend_length_le acc e), appendTrend_eq_drop]
    have hk : (acc ++ [e]).length - 30 ≤ (acc ++ [e]).length := Nat.sub_le _ _
    rw [← List.drop_append_of_le_length hk, List.drop_drop]
    have hT : acc ++ e :: rest = (acc ++ [e]) ++ rest := by simp
    rw [hT]
    congr 1
    simp only [List.length_drop, List.length_append, List.length_cons,
      List.length_nil]
    omega

/-- C6: the trend-store append puts the new entry at the back and keeps
exactly the 30 most recent entries in order: one `appendTrend` equals
append-then-drop-from-the-front, and folding any run sequence (e.g. 35
entries) over the empty store leaves exactly the last 30 in order. -/
theorem appendTrend_keeps_last30 :
    (∀ (trends : List TrendEntry) (e : TrendEntry),
        appendTrend trends e =
          (trends ++ [e]).drop ((trends ++ [e]).length - 30)) ∧
    (∀ es : List TrendEntry,
        es.foldl appendTrend [] = es.drop (es.length - 30)) := by
  refine ⟨appendTrend_eq_drop, fun es => ?_⟩
  simpa using foldl_appendTrend_eq es [] (by simp)

/-- C9: a missing or unreadable/unparsable trends file is recovered
locally: `loadExistingTrends` returns the empty history (it is total, so
no error propagates), and the subsequent append behaves as if the
history were empty. -/
theorem loadExistingTrends_recovers :
    loadExistingTrends .absent = [] ∧ loadExistingTrends .unreadable = [] ∧
    (∀ m : TestMetrics,
        generateTrendsReport m .absent = appendTrend [] (mkTrendEntry m) ∧
        generateTrendsReport m .unreadable = appendTrend [] (mkTrendEntry m)) :=
  ⟨rfl, rfl, fun _ => ⟨rfl, rfl⟩⟩

/-! ### Error classifier (claim C3) -/

/-- C3 as stated is false: the implemented matching is case-sensitive
(only the Timeout rule checks the two spellings `timeout`/`Timeout`).
On the concrete message `TIMEOUT 30000ms exceeded` the code returns
`Other`, while the claim's case-insensitive first-match rule returns
`Timeout`. -/
theorem categorizeError_not_case_insensitive :
    categorizeError "TIMEOUT 30000ms exceeded" = "Other" ∧
    categorizeErrorCI "TIMEOUT 30000ms exceeded" = "Timeout" := by
  constructor <;> decide

/-- C3 amended: `categorizeError` returns the first category in the
priority order Timeout → Selector/Locator → Network → Assertion →
Navigation whose keywords (`timeout`/`Timeout`; `selector`/`locator`;
`network`/`fetch`; `assertion`/`expected`; `navigation`/`page`) occur
as a CASE-SENSITIVE substring, `Other` when none do; the six example
messages map as listed. -/
theorem categorizeError_first_match :
    (∀ msg : String, categorizeError msg = firstMatch msg keywordRules) ∧
    categorizeError "Timeout 30000ms exceeded" = "Timeout" ∧
    categorizeError "locator.click: element not found" = "Selector/Locator" ∧
    categorizeError "fetch failed: network error" = "Network" ∧
    categorizeError "expected true, received false" = "Assertion" ∧
    categorizeError "page.goto: net::ERR" = "Navigation" ∧
    categorizeError "unknown failure" = "Other" := by
  refine ⟨fun msg => ?_, by decide, by decide, by decide, by decide, by decide,
    by decide⟩
  simp [categorizeError, firstMatch, keywordRules, List.any_cons, List.any_nil]

/-! ### Report assembler (claims C5, C8) -/

/-- C5: `onEnd` computes `passRate = passed/total*100`,
`failRate = failed/total*100`, `avgDuration = duration/total` when
`total > 0`, sets all three to `0` when `total = 0` (it is total, so no
division-by-zero failure), and consequently
`passRate + failRate = 100*(passed+failed)/total` when `total > 0`.
Number arithmetic is modelled exactly over `ℚ`. -/
theorem onEnd_rates (now : Nat) (s : ReporterState) :
    (s.metrics.totalTests ≠ 0 →
      (onEnd now s).metrics.passRate =
          ((s.metrics.passed : ℚ) / (s.metrics.totalTests : ℚ)) * 100 ∧
      (onEnd now s).metrics.failRate =
          ((s.metrics.failed : ℚ) / (s.metrics.totalTests : ℚ)) * 100 ∧
      (onEnd now s).metrics.avgDuration =
          (s.metrics.duration : ℚ) / (s.metrics.totalTests : ℚ) ∧
      (onEnd now s).metrics.passRate + (onEnd now s).metrics.failRate =
          100 * ((s.metrics.passed : ℚ) + (s.metrics.failed : ℚ)) /
            (s.metrics.totalTests : ℚ)) ∧
    (s.metrics.totalTests = 0 →
      (onEnd now s).metrics.passRate = 0 ∧
      (onEnd now s).metrics.failRate = 0 ∧
      (onEnd now s).metrics.avgDuration = 0) := by
  constructor
  · intro h
    have hpos : 0 < s.metrics.totalTests := Nat.pos_of_ne_zero h
    have hq : (s.metrics.totalTests : ℚ) ≠ 0 := by exact_mod_cast h
    refine ⟨by simp [onEnd, hpos], by simp [onEnd, hpos], by simp [onEnd, hpos], ?_⟩
    simp only [onEnd, if_pos hpos]
    field_simp
    ring
  · intro h
    have hneg : ¬ 0 < s.metrics.totalTests := by omega
    exact ⟨by simp [onEnd, hneg], by simp [onEnd, hneg], by simp [onEnd, hneg]⟩

/-- A concrete accumulated state with 2 tests (1 passed, 1 failed),
used by the `onEnd_rates` witness. -/
def exState : ReporterState where
  metrics := { initialMetrics 0 with totalTests := 2, passed := 1, failed := 1 }
  testResults := []

/-- Witness for `onEnd_rates`, at a 2-test state (hypothesis
`total ≠ 0`) and at the fresh state (hypothesis `total = 0`). -/
theorem onEnd_rates_wit :
    (exState.metrics.totalTests ≠ 0 ∧
      ((onEnd 5 exState).metrics.passRate =
          ((exState.metrics.passed : ℚ) / (exState.metrics.totalTests : ℚ)) * 100 ∧
        (onEnd 5 exState).metrics.failRate =
          ((exState.metrics.failed : ℚ) / (exState.metrics.totalTests : ℚ)) * 100 ∧
        (onEnd 5 exState).metrics.avgDuration =
          (exState.metrics.duration : ℚ) / (exState.metrics.totalTests : ℚ) ∧
        (onEnd 5 exState).metrics.passRate + (onEnd 5 exState).metrics.failRate =
          100 * ((exState.metrics.passed : ℚ) + (exState.metrics.failed : ℚ)) /
            (exState.metrics.totalTests : ℚ))) ∧
    ((initialState 0).metrics.totalTests = 0 ∧
      ((onEnd 5 (initialState 0)).metrics.passRate = 0 ∧
        (onEnd 5 (initialState 0)).metrics.failRate = 0 ∧
        (onEnd 5 (initialState 0)).metrics.avgDuration = 0)) :=
  ⟨⟨by decide, (onEnd_rates 5 exState).1 (by decide)⟩,
   ⟨rfl, (onEnd_rates 5 (initialState 0)).2 rfl⟩⟩

/-- C8 as stated is false: `onEnd` stamps `endTime` with the clock value
of the call, so a second call at a later clock time yields a different
`endTime` (here: times 0 and 1 on the fresh state). -/
theorem onEnd_twice_endTime_differs :
    ¬ ((onEnd 1 (onEnd 0 (initialState 0))).metrics =
        (onEnd 0 (initialState 0)).metrics) := by
  intro h
  have := congrArg TestMetrics.endTime h
  simp [onEnd] at this

/-- C8 amended: a second `onEnd` with no events in between reproduces
every summary field of the first except `endTime`, which is the clock
value of the respective call (so the two summaries agree exactly when
the two calls observe the same clock value). -/
theorem onEnd_twice_same_except_endTime (t1 t2 : Nat) (s : ReporterState) :
    (onEnd t2 (onEnd t1 s)).metrics =
      { (onEnd t1 s).metrics with endTime := t2 } := rfl

/-! ### Annotation extractor (claim C7) -/

theorem jsOrD_some_jsOrD (o : Option String) (d : String) (hd : d ≠ "") :
    jsOrD (some (jsOrD o d)) d = jsOrD o d := by
  cases o with
  | none => simp [jsOrD, hd]
  | some s =>
    by_cases hs : s = "" <;> simp [jsOrD, hs, hd]

theorem foldl_applyAnno_severity (l : List TestAnno) :
    ∀ acc : AllurePropsOpt,
      (l.foldl applyAnno acc).severity =
        (match l.reverse.find? (fun a => a.type == "severity") with
         | some a => some (jsOrD a.description "normal")
         | none => acc.severity) := by
  induction l with
  | nil => intro acc; simp
  | cons a rest ih =>
    intro acc
    rw [List.foldl_cons, ih, List.reverse_cons, List.find?_append]
    cases hfind : rest.reverse.find? (fun a => a.type == "severity") with
    | some b => simp
    | none =>
      simp only [Option.none_or]
      by_cases h1 : a.type = "severity"
      · simp [List.find?, h1, applyAnno]
      · have e1 : (a.type == "severity") = false := by
          simpa using h1
        by_cases h2 : a.type = "feature" <;> by_cases h3 : a.type = "epic" <;>
          simp [List.find?, h1, h2, h3, e1, applyAnno]

theorem foldl_applyAnno_feature (l : List TestAnno) :
    ∀ acc : AllurePropsOpt,
      (l.foldl applyAnno acc).feature =
        (match l.reverse.find? (fun a => a.type == "feature") with
         | some a => some (jsOrD a.description "Unknown")
         | none => acc.feature) := by
  induction l with
  | nil => intro acc; simp
  | cons a rest ih =>
    intro acc
    rw [List.foldl_cons, ih, List.reverse_cons, List.find?_append]
    cases hfind : rest.reverse.find? (fun a => a.type == "feature") with
    | some b => simp
    | none =>
      simp only [Option.none_or]
      by_cases h1 : a.type = "severity"
      · simp [List.find?, h1, applyAnno]
      · by_cases h2 : a.type = "feature"
        · simp [List.find?, h1, h2, applyAnno]
        · have e1 : (a.type == "feature") = false := by
            simpa using h2
          by_cases h3 : a.type = "epic" <;>
            simp [List.find?, h1, h2, h3, e1, applyAnno]

theorem foldl_applyAnno_epic (l : List TestAnno) :
    ∀ acc : AllurePropsOpt,
      (l.foldl applyAnno acc).epic =
        (match l.reverse.find? (fun a => a.type == "epic") with
         | some a => some (jsOrD a.description "General")
         | none => acc.epic) := by
  induction l with
  | nil => intro acc; simp
  | cons a rest ih =>
    intro acc
    rw [List.foldl_cons, ih, List.reverse_cons, List.find?_append]
    cases hfind : rest.reverse.find? (fun a => a.type == "epic") with
    | some b => simp
    | none =>
      simp only [Option.none_or]
      by_cases h1 : a.type = "severity"
      · simp [List.find?, h1, applyAnno]
      · by_cases h3 : a.type = "epic"
        · simp [List.find?, h1, h3, applyAnno]
        · have e1 : (a.type == "epic") = false := by
            simpa using h3
          by_cases h2 : a.type = "feature" <;>
            simp [List.find?, h1, h2, h3, e1, applyAnno]

/-- C7: on an empty tag set the extractor returns exactly
`{severity := "normal", feature := "Unknown", epic := "General"}`, and
in general each output field is determined by the LAST tag of its type
in iteration order (overwrite semantics), defaulting when that tag's
description is falsy or no such tag exists. -/
theorem extractAllure_defaults_and_last_wins :
    (∀ (title : String) (proj file : Option String),
        extractAllureProperties ⟨title, proj, file, []⟩ =
          ⟨"normal", "Unknown", "General"⟩) ∧
    (∀ t : TestCase,
        (extractAllureProperties t).severity =
          (match t.annos.reverse.find? (fun a => a.type == "severity") with
           | some a => jsOrD a.description "normal"
           | none => "normal") ∧
        (extractAllureProperties t).feature =
          (match t.annos.reverse.find? (fun a => a.type == "feature") with
           | some a => jsOrD a.description "Unknown"
           | none => "Unknown") ∧
        (extractAllureProperties t).epic =
          (match t.annos.reverse.find? (fun a => a.type == "epic") with
           | some a => jsOrD a.description "General"
           | none => "General")) := by
  refine ⟨fun title proj file => rfl, fun t => ⟨?_, ?_, ?_⟩⟩
  · show jsOrD (t.annos.foldl applyAnno {}).severity "normal" = _
    rw [foldl_applyAnno_severity]
    cases hfind : t.annos.reverse.find? (fun a => a.type == "severity") with
    | some a => exact jsOrD_some_jsOrD a.description "normal" (by decide)
    | none => rfl
  · show jsOrD (t.annos.foldl applyAnno {}).feature "Unknown" = _
    rw [foldl_applyAnno_feature]
    cases hfind : t.annos.reverse.find? (fun a => a.type == "feature") with
    | some a => exact jsOrD_some_jsOrD a.description "Unknown" (by decide)
    | none => rfl
  · show jsOrD (t.annos.foldl applyAnno {}).epic "General" = _
    rw [foldl_applyAnno_epic]
    cases hfind : t.annos.reverse.find? (fun a => a.type == "epic") with
    | some a => exact jsOrD_some_jsOrD a.description "General" (by decide)
    | none => rfl

/-! ### Metric accumulator (claims C1, C10, C4) -/

theorem onTestEnd_counters (cwd : String) (s : ReporterState) (t : TestCase)
    (r : TestResult) :
    (onTestEnd cwd s t r).metrics.totalTests = s.metrics.totalTests + 1 ∧
    (onTestEnd cwd s t r).metrics.passed + (onTestEnd cwd s t r).metrics.failed +
        (onTestEnd cwd s t r).metrics.skipped =
      s.metrics.passed + s.metrics.failed + s.metrics.skipped + 1 ∧
    (onTestEnd cwd s t r).metrics.flaky = s.metrics.flaky := by
  rcases r with ⟨st, d, err, ret⟩
  cases st <;> cases err <;>
    simp [onTestEnd, updateAllureMetrics, updSlowest, updFastest] <;> omega

theorem foldl_onTestEnd_counters (cwd : String)
    (events : List (TestCase × TestResult)) :
    ∀ s : ReporterState,
      (events.foldl (fun s ev => onTestEnd cwd s ev.1 ev.2) s).metrics.totalTests
          = s.metrics.totalTests + events.length ∧
      (events.foldl (fun s ev => onTestEnd cwd s ev.1 ev.2) s).metrics.passed +
          (events.foldl (fun s ev => onTestEnd cwd s ev.1 ev.2) s).metrics.failed +
          (events.foldl (fun s ev => onTestEnd cwd s ev.1 ev.2) s).metrics.skipped
          = s.metrics.passed + s.metrics.failed + s.metrics.skipped +
              events.length ∧
      (events.foldl (fun s ev => onTestEnd cwd s ev.1 ev.2) s).metrics.flaky
          = s.metrics.flaky := by
  induction events with
  | nil => intro s; simp
  | cons ev rest ih =>
    intro s
    rw [List.foldl_cons]
    obtain ⟨h1, h2, h3⟩ := ih (onTestEnd cwd s ev.1 ev.2)
    obtain ⟨g1, g2, g3⟩ := onTestEnd_counters cwd s ev.1 ev.2
    simp only [List.length_cons]
    refine ⟨?_, ?_, ?_⟩ <;> omega

/-- C1: after the accumulator processes any sequence of N completion
events (statuses drawn from passed/failed/skipped/timedOut/interrupted,
which are all of them), `totalTests = N` and
`passed + failed + skipped = totalTests`. -/
theorem runEvents_total_eq_sum (cwd : String) (t0 : Nat)
    (events : List (TestCase × TestResult)) :
    (runEvents cwd t0 events).metrics.totalTests = events.length ∧
    (runEvents cwd t0 events).metrics.passed +
        (runEvents cwd t0 events).metrics.failed +
        (runEvents cwd t0 events).metrics.skipped =
      (runEvents cwd t0 events).metrics.totalTests := by
  obtain ⟨h1, h2, h3⟩ := foldl_onTestEnd_counters cwd events (initialState t0)
  unfold runEvents
  have e1 : (initialState t0).metrics.totalTests = 0 := rfl
  have e2 : (initialState t0).metrics.passed = 0 := rfl
  have e3 : (initialState t0).metrics.failed = 0 := rfl
  have e4 : (initialState t0).metrics.skipped = 0 := rfl
  omega

/-- C10: the `flaky` counter starts at 0 and neither `onTestEnd` nor
`onEnd` ever changes it, so every produced summary reports `flaky = 0`. -/
theorem runEvents_flaky_zero (cwd : String) (t0 tEnd : Nat)
    (events : List (TestCase × TestResult)) :
    (runEvents cwd t0 events).metrics.flaky = 0 ∧
    (onEnd tEnd (runEvents cwd t0 events)).metrics.flaky = 0 := by
  obtain ⟨-, -, h3⟩ := foldl_onTestEnd_counters cwd events (initialState t0)
  have e5 : (initialState t0).metrics.flaky = 0 := rfl
  have hz : (runEvents cwd t0 events).metrics.flaky = 0 := by
    unfold runEvents
    exact h3.trans e5
  exact ⟨hz, by simpa [onEnd] using hz⟩

/-- Concrete inputs for refuting claim C4: a test on the chromium
project with no tags, completing once with status `timedOut` (carrying
an error message) and once with status `failed`. -/
def tEx : TestCase := ⟨"t1", some "chromium", none, []⟩

/-- The timed-out completion event used against claim C4. -/
def rTimedEx : TestResult := ⟨.timedOut, 5, some "boom", 0⟩

/-- C4 as stated is false: for a `timedOut` event the accumulator does
NOT update the per-severity/feature/epic failed counts nor the
error-category counter the way it does for `failed`; on the concrete
input the `timedOut` run leaves both maps empty while the `failed` run
records `normal`-severity and `Other`-category entries. -/
theorem onTestEnd_timedOut_not_full_failed :
    (onTestEnd "" (initialState 0) tEx rTimedEx).metrics.severityMetrics ≠
        (onTestEnd "" (initialState 0) tEx
          { rTimedEx with status := .failed }).metrics.severityMetrics ∧
    (onTestEnd "" (initialState 0) tEx rTimedEx).metrics.errorCategories ≠
        (onTestEnd "" (initialState 0) tEx
          { rTimedEx with status := .failed }).metrics.errorCategories ∧
    (onTestEnd "" (initialState 0) tEx rTimedEx).metrics.severityMetrics = [] ∧
    (onTestEnd "" (initialState 0) tEx
        { rTimedEx with status := .failed }).metrics.severityMetrics =
      [("normal", ⟨1, 0, 1⟩)] ∧
    (onTestEnd "" (initialState 0) tEx rTimedEx).metrics.errorCategories = [] ∧
    (onTestEnd "" (initialState 0) tEx
        { rTimedEx with status := .failed }).metrics.errorCategories =
      [("Other", 1)] := by
  refine ⟨by decide, by decide, by decide, by decide, by decide, by decide⟩

/-- C4 amended: a `timedOut` or `interrupted` event increments the
`failed` counter and the per-browser failed counter (and adds its
duration) exactly as a `failed` event would, but leaves the
severity/feature/epic metrics and the error-category counter unchanged
(unlike a `failed` event). -/
theorem onTestEnd_timedOut_counts_like_failed (cwd : String)
    (s : ReporterState) (t : TestCase) (r : TestResult)
    (h : r.status = .timedOut ∨ r.status = .interrupted) :
    (onTestEnd cwd s t r).metrics.totalTests =
        (onTestEnd cwd s t { r with status := .failed }).metrics.totalTests ∧
    (onTestEnd cwd s t r).metrics.failed =
        (onTestEnd cwd s t { r with status := .failed }).metrics.failed ∧
    (onTestEnd cwd s t r).metrics.browserMetrics =
        (onTestEnd cwd s t { r with status := .failed }).metrics.browserMetrics ∧
    (onTestEnd cwd s t r).metrics.duration =
        (onTestEnd cwd s t { r with status := .failed }).metrics.duration ∧
    (onTestEnd cwd s t r).metrics.severityMetrics = s.metrics.severityMetrics ∧
    (onTestEnd cwd s t r).metrics.featureMetrics = s.metrics.featureMetrics ∧
    (onTestEnd cwd s t r).metrics.epicMetrics = s.metrics.epicMetrics ∧
    (onTestEnd cwd s t r).metrics.errorCategories = s.metrics.errorCategories := by
  rcases r with ⟨st, d, err, ret⟩
  simp only at h
  rcases h with h | h <;> subst h <;> cases err <;>
    simp [onTestEnd, updateAllureMetrics, updSlowest, updFastest]

/-- Witness for `onTestEnd_timedOut_counts_like_failed` at the concrete
timed-out event. -/
theorem onTestEnd_timedOut_counts_like_failed_wit :
    (rTimedEx.status = Status.timedOut ∨ rTimedEx.status = Status.interrupted) ∧
    ((onTestEnd "" (initialState 0) tEx rTimedEx).metrics.totalTests =
        (onTestEnd "" (initialState 0) tEx
          { rTimedEx with status := .failed }).metrics.totalTests ∧
      (onTestEnd "" (initialState 0) tEx rTimedEx).metrics.failed =
        (onTestEnd "" (initialState 0) tEx
          { rTimedEx with status := .failed }).metrics.failed ∧
      (onTestEnd "" (initialState 0) tEx rTimedEx).metrics.browserMetrics =
        (onTestEnd "" (initialState 0) tEx
          { rTimedEx with status := .failed }).metrics.browserMetrics ∧
      (onTestEnd "" (initialState 0) tEx rTimedEx).metrics.duration =
        (onTestEnd "" (initialState 0) tEx
          { rTimedEx with status := .failed }).metrics.duration ∧
      (onTestEnd "" (initialState 0) tEx rTimedEx).metrics.severityMetrics =
        (initialState 0).metrics.severityMetrics ∧
      (onTestEnd "" (initialState 0) tEx rTimedEx).metrics.featureMetrics =
        (initialState 0).metrics.featureMetrics ∧
      (onTestEnd "" (initialState 0) tEx rTimedEx).metrics.epicMetrics =
        (initialState 0).metrics.epicMetrics ∧
      (onTestEnd "" (initialState 0) tEx rTimedEx).metrics.errorCategories =
        (initialState 0).metrics.errorCategories) :=
  ⟨Or.inl rfl,
   onTestEnd_timedOut_counts_like_failed "" (initialState 0) tEx rTimedEx
     (Or.inl rfl)⟩

/-! ### HTML renderer escaping (claim C2) -/

/-- A test-result detail whose test name carries an HTML/script
payload, used against claim C2. -/
def evilDetail : TestResultDetail where
  test := "<script>alert(1)</script>"
  status := "failed"
  duration := 5
  browser := "Chromium"
  specFile := "tests/login.spec.ts"
  retry := 0
  error := none
  allureProperties := none

/-- C2 fails on the code: `generateDetailsSection` interpolates the test
name verbatim — the rendered document contains the raw
`<script>alert(1)</script>` (first conjunct), while the escaped form
the claim requires is what `escapeHtml` would have produced (second
conjunct). Only the error-message cell goes through `escapeHtml`. -/
theorem detailsSection_raw_script :
    (∃ a b : String,
        generateDetailsSection [evilDetail] =
          a ++ "<script>alert(1)</script>" ++ b) ∧
    escapeHtml "<script>alert(1)</script>" =
      "&lt;script&gt;alert(1)&lt;/script&gt;" := by
  constructor
  · refine ⟨dsHeader ++ rowPre, rowAfterTest evilDetail ++ dsFooter, ?_⟩
    show dsHeader ++ String.join [detailRow evilDetail] ++ dsFooter = _
    have hjoin : String.join [detailRow evilDetail] = "" ++ detailRow evilDetail :=
      rfl
    rw [hjoin, String.empty_append]
    show dsHeader ++ (rowPre ++ evilDetail.test ++ rowAfterTest evilDetail) ++
        dsFooter = _
    have ht : evilDetail.test = "<script>alert(1)</script>" := rfl
    rw [ht]
    simp only [String.append_assoc]
  · decide

end PlaywrightEnhancedReporter
